import Mathlib

/-!
Verification of `src/model/movinet_model.py`: the `MovinetClassifier` Keras model
and the `build_movinet_model` factory builder.

The embedding is a shallow one.  Python dictionaries become association lists
(`List (String × α)`, first binding wins, insertion order preserved); symbolic
Keras tensors become `Tensor` records carrying the static shape (`none` is a
dynamic dimension) and the placeholder name; exceptions become `Except PyError`;
the single call the constructor makes to the backbone collaborator is recorded
in an explicit invocation trace; `from_config`'s in-place mutation of its
`config` argument is modelled by returning the post-call configuration mapping
alongside the constructed model.
-/

set_option autoImplicit false

namespace Movinet

/-- A static tensor shape: one entry per dimension, `none` for a dynamic size. -/
abbrev Shape := List (Option Nat)

/-- A symbolic Keras tensor: its static shape and its placeholder name. -/
structure Tensor where
  shape : Shape
  name : String
deriving DecidableEq, Repr

/-- Models `tf.keras.Input(shape=s, name=n)`: a placeholder tensor whose shape is
`s` with a dynamic batch dimension prepended. -/
def kerasInput (shape : Shape) (name : String) : Tensor :=
  ⟨none :: shape, name⟩

/-- Models `tf.keras.layers.InputSpec(shape=...)`: it carries the full shape,
batch dimension included. -/
structure InputSpec where
  shape : Shape
deriving DecidableEq, Repr

/-- An opaque `tf.keras.regularizers.Regularizer` configuration value: the code
under verification only stores and forwards it. -/
structure Regularizer where
  tag : String
deriving DecidableEq, Repr

/-- The Python exceptions the embedded code can raise. -/
inductive PyError where
  | keyError (key : String)
  | attributeError (attr : String)
deriving DecidableEq, Repr

/-- The dynamic value bound to `states` at the backbone call site:
`inputs.get('states', {})` is either the tensor stored under the key
`'states'` of the `inputs` mapping or the empty-dictionary default. -/
inductive StatesArg where
  | tensor (t : Tensor)
  | emptyDict
deriving DecidableEq, Repr

/-- A value of the model's `inputs` mapping: initially every entry is a single
placeholder tensor; when `output_states` is set the `'states'` entry is
overwritten with a nested mapping of placeholders. -/
inductive InputVal where
  | tensor (t : Tensor)
  | dict (m : List (String × Tensor))
deriving DecidableEq, Repr

/-- The functional-model outputs: `(x, states)` when `output_states` else `x`. -/
inductive ModelOutputs where
  | single (x : Tensor)
  | withStates (x : Tensor) (states : List (String × Tensor))
deriving DecidableEq, Repr

/-- The primary (classification) output tensor of either output form. -/
def primaryOutput : ModelOutputs → Tensor
  | .single x => x
  | .withStates x _ => x

/-- The backbone collaborator: a callable taking the image tensor and the
dynamic `states` argument and returning `(endpoints, states)`, together with
the `_head_filters` and `_conv_type` attributes the classifier reads off it. -/
structure Backbone where
  run : Tensor → StatesArg → List (String × Tensor) × List (String × Tensor)
  head_filters : Nat
  conv_type : String

/-- One recorded call to the backbone: the argument dictionary
`dict(image=..., states=...)` it was invoked with. -/
structure BackboneInvocation where
  image : Tensor
  states : StatesArg
deriving DecidableEq, Repr

/-- The constructor arguments of `movinet_layers.ClassifierHead`. -/
structure ClassifierHeadCfg where
  head_filters : Nat
  num_classes : Nat
  dropout_rate : Rat
  kernel_initializer : String
  kernel_regularizer : Option Regularizer
  conv_type : String
deriving DecidableEq, Repr

/-- Modelled from the spec: `movinet_layers.ClassifierHead` lives in the
collaborator module `movinet_layers`, which is not under `src/`.  Per the spec
it is the classification-head transform giving "correct output shape
`(num_classes,)` for a constructed model": applied to the head feature map it
yields a per-example vector of `num_classes` logits, so the resulting tensor
keeps the batch dimension and has `num_classes` as its last dimension. -/
def classifierHeadApply (cfg : ClassifierHeadCfg) (x : Tensor) : Tensor :=
  ⟨[x.shape.headD none, some cfg.num_classes], "classifier_head"⟩

/-- The constructed `MovinetClassifier`: the attributes set by `__init__`
(the stored configuration fields and `_backbone`) plus the functional-model
`inputs` mapping and `outputs` handed to the `tf.keras.Model` initializer. -/
structure Model where
  backbone : Backbone
  num_classes : Nat
  input_specs : List (String × InputSpec)
  dropout_rate : Rat
  kernel_initializer : String
  kernel_regularizer : Option Regularizer
  bias_regularizer : Option Regularizer
  output_states : Bool
  inputs : List (String × InputVal)
  outputs : ModelOutputs

/-- The default `input_specs` installed when the argument is falsy:
`{'image': InputSpec(shape=[None, None, None, None, 3])}`. -/
def defaultInputSpecs : List (String × InputSpec) :=
  [("image", ⟨[none, none, none, none, some 3]⟩)]

/-- The `input_specs` mapping after the `if not input_specs:` defaulting:
`None` and the empty mapping are both falsy in Python. -/
def effectiveSpecs : Option (List (String × InputSpec)) → List (String × InputSpec)
  | none => defaultInputSpecs
  | some l => if l.isEmpty then defaultInputSpecs else l

/-- The `inputs` comprehension: one `tf.keras.Input` per spec, built from
`state.shape[1:]` and named `f'states/{name}'`. -/
def buildInputs (specs : List (String × InputSpec)) : List (String × Tensor) :=
  specs.map (fun p => (p.1, kerasInput (p.2.shape.drop 1) ("states/" ++ p.1)))

/-- The line `states = inputs.get('states', {})`. -/
def statesArgOf (inputs : List (String × Tensor)) : StatesArg :=
  match inputs.lookup "states" with
  | some t => .tensor t
  | none => .emptyDict

/-- Python dictionary assignment `d[k] = v`: overwrite in place when the key is
present (keeping its position), append otherwise. -/
def dictSet {α : Type} (l : List (String × α)) (k : String) (v : α) :
    List (String × α) :=
  if l.any (fun p => p.1 == k) then
    l.map (fun p => if p.1 == k then (k, v) else p)
  else l ++ [(k, v)]

/-- The body of `MovinetClassifier.__init__`.  It returns the constructed model
(or the raised exception) together with the trace of backbone invocations the
construction performed.  A missing `'image'` key raises `KeyError` while the
argument dictionary of the backbone call is being built, hence before the
backbone runs; a missing `'head'` endpoint raises `KeyError` after it ran. -/
def classifierInit (backbone : Backbone) (num_classes : Nat)
    (input_specs : Option (List (String × InputSpec))) (dropout_rate : Rat)
    (kernel_initializer : String) (kernel_regularizer : Option Regularizer)
    (bias_regularizer : Option Regularizer) (output_states : Bool) :
    Except PyError Model × List BackboneInvocation :=
  let specs := effectiveSpecs input_specs
  let inputs := buildInputs specs
  let states := statesArgOf inputs
  match inputs.lookup "image" with
  | none => (.error (.keyError "image"), [])
  | some img =>
    let called := backbone.run img states
    match called.1.lookup "head" with
    | none => (.error (.keyError "head"), [⟨img, states⟩])
    | some headFeat =>
      let x := classifierHeadApply
        ⟨backbone.head_filters, num_classes, dropout_rate, kernel_initializer,
          kernel_regularizer, backbone.conv_type⟩ headFeat
      let baseInputs : List (String × InputVal) :=
        inputs.map (fun p => (p.1, .tensor p.2))
      let finalInputs :=
        if output_states then
          dictSet baseInputs "states"
            (.dict (called.2.map (fun p => (p.1, kerasInput (p.2.shape.drop 1) p.1))))
        else baseInputs
      let outputs := if output_states then ModelOutputs.withStates x called.2
        else ModelOutputs.single x
      (.ok ⟨backbone, num_classes, specs, dropout_rate, kernel_initializer,
        kernel_regularizer, bias_regularizer, output_states, finalInputs, outputs⟩,
        [⟨img, states⟩])

/-- The `checkpoint_items` property: `dict(backbone=self.backbone)`. -/
def checkpoint_items (m : Model) : List (String × Backbone) :=
  [("backbone", m.backbone)]

/-- A serialized `InputSpec`, as `tf.keras` writes it into a saved config: a
plain dictionary form of the spec. -/
structure SerializedSpec where
  class_name : String
  shape : Shape
deriving DecidableEq, Repr

/-- An entry of a config's `input_specs` mapping: either a framework-native
`InputSpec` object or its plain-dictionary serialized form. -/
inductive SpecOrDict where
  | spec (s : InputSpec)
  | dict (d : SerializedSpec)
deriving DecidableEq, Repr

/-- Modelled from the spec: `tf.keras.layers.deserialize`, the framework's layer
deserializer, turns a serialized spec dictionary back into the
framework-native `InputSpec` object it encodes. -/
def kerasDeserialize (d : SerializedSpec) : InputSpec :=
  ⟨d.shape⟩

/-- The configuration mapping produced by `get_config` and consumed by
`from_config`: the eight keys written by `get_config`, in order. -/
structure Config where
  backbone : Backbone
  num_classes : Nat
  input_specs : List (String × SpecOrDict)
  dropout_rate : Rat
  kernel_initializer : String
  kernel_regularizer : Option Regularizer
  bias_regularizer : Option Regularizer
  output_states : Bool

/-- The method `MovinetClassifier.get_config`: the stored construction
parameters, with the input specs as native objects. -/
def get_config (m : Model) : Config :=
  ⟨m.backbone, m.num_classes, m.input_specs.map (fun p => (p.1, .spec p.2)),
    m.dropout_rate, m.kernel_initializer, m.kernel_regularizer,
    m.bias_regularizer, m.output_states⟩

/-- The loop body of `from_config`: a plain-dictionary entry is deserialized,
an already-native entry is left unchanged. -/
def deserializeEntry : SpecOrDict → SpecOrDict
  | .dict d => .spec (kerasDeserialize d)
  | .spec s => .spec s

/-- Extracts native input specs from the (post-loop) entries; `none` when some
entry is still a plain dictionary. -/
def allSpecs (l : List (String × SpecOrDict)) :
    Option (List (String × InputSpec)) :=
  l.mapM (fun p => match p.2 with
    | .spec s => some (p.1, s)
    | .dict _ => none)

/-- The classmethod `MovinetClassifier.from_config`.  The loop mutates
`config['input_specs']` in place; the mutation is modelled by also returning
the configuration mapping as the caller observes it after the call.  Were a
plain-dictionary spec ever to reach the constructor, `state.shape` would raise
`AttributeError`; the deserialization loop makes that branch unreachable. -/
def from_config (cfg : Config) :
    (Except PyError Model × List BackboneInvocation) × Config :=
  let specs' :=
    if cfg.input_specs.isEmpty then cfg.input_specs
    else cfg.input_specs.map (fun p => (p.1, deserializeEntry p.2))
  let cfg' : Config :=
    ⟨cfg.backbone, cfg.num_classes, specs', cfg.dropout_rate,
      cfg.kernel_initializer, cfg.kernel_regularizer, cfg.bias_regularizer,
      cfg.output_states⟩
  match allSpecs cfg'.input_specs with
  | some specs =>
    (classifierInit cfg'.backbone cfg'.num_classes (some specs)
      cfg'.dropout_rate cfg'.kernel_initializer cfg'.kernel_regularizer
      cfg'.bias_regularizer cfg'.output_states, cfg')
  | none => ((.error (.attributeError "shape"), []), cfg')

/-- An opaque backbone configuration object (`model_config.backbone`). -/
structure BackboneConfig where
  tag : String
deriving DecidableEq, Repr

/-- An opaque normalization/activation configuration object
(`model_config.norm_activation`). -/
structure NormActivationConfig where
  tag : String
deriving DecidableEq, Repr

/-- Modelled from the spec: `cfg.MovinetModel` (module `cfg` is not under
`src/`) is "a configuration object exposing `backbone`, `norm_activation`,
`dropout_rate`". -/
structure MovinetModel where
  backbone : BackboneConfig
  norm_activation : NormActivationConfig
  dropout_rate : Rat

/-- The type of `backbones.factory.build_backbone`, the external
backbone-factory lookup, taken as a parameter of the builder: arguments in the
order `input_specs`, `backbone_config`, `norm_activation_config`,
`l2_regularizer`. -/
abbrev BackboneFactory :=
  InputSpec → BackboneConfig → NormActivationConfig → Option Regularizer → Backbone

/-- The function `build_movinet_model`, parametrized by the external backbone
factory it calls: it builds the backbone from the config, wraps the single
input spec as `{'image': input_specs}` and constructs a `MovinetClassifier`
with the l2 regularizer as kernel regularizer and the config's dropout rate,
leaving `kernel_initializer`, `bias_regularizer` and `output_states` at their
defaults. -/
def build_movinet_model (build_backbone : BackboneFactory)
    (input_specs : InputSpec) (model_config : MovinetModel) (num_classes : Nat)
    (l2_regularizer : Option Regularizer) :
    Except PyError Model × List BackboneInvocation :=
  let input_specs_dict := [("image", input_specs)]
  let backbone := build_backbone input_specs model_config.backbone
    model_config.norm_activation l2_regularizer
  classifierInit backbone num_classes (some input_specs_dict)
    model_config.dropout_rate "HeNormal" l2_regularizer none false

/-- Modelled from the spec: the external model factory registry
(`factory_3d.register_model_builder`), restricted to the registrations this
module performs.  The decorator line registers `build_movinet_model` under the
string key `'movinet'`. -/
def registered_model_builders :
    List (String × (BackboneFactory → InputSpec → MovinetModel → Nat →
      Option Regularizer → Except PyError Model × List BackboneInvocation)) :=
  [("movinet", build_movinet_model)]

/-- A space of input specs (the entries of `input_specs` written as native
objects, then passed through the deserialization loop unchanged or
deserialized): the specs the constructor actually receives from
`from_config`. -/
def forcedSpecs (l : List (String × SpecOrDict)) : List (String × InputSpec) :=
  l.map (fun p => (p.1, match p.2 with
    | .spec s => s
    | .dict d => kerasDeserialize d))

theorem effectiveSpecs_ne_nil (o : Option (List (String × InputSpec))) :
    effectiveSpecs o ≠ [] := by
  cases o with
  | none => simp [effectiveSpecs, defaultInputSpecs]
  | some l => cases l <;> simp [effectiveSpecs, defaultInputSpecs]

theorem effectiveSpecs_idem (o : Option (List (String × InputSpec))) :
    effectiveSpecs (some (effectiveSpecs o)) = effectiveSpecs o := by
  have h := effectiveSpecs_ne_nil o
  cases he : effectiveSpecs o with
  | nil => exact absurd he h
  | cons a t => simp [effectiveSpecs]

theorem classifierInit_congr (b : Backbone) (nc : Nat)
    (i1 i2 : Option (List (String × InputSpec))) (dr : Rat) (ki : String)
    (kr br : Option Regularizer) (os : Bool)
    (h : effectiveSpecs i1 = effectiveSpecs i2) :
    classifierInit b nc i1 dr ki kr br os =
      classifierInit b nc i2 dr ki kr br os := by
  simp only [classifierInit, h]

theorem lookup_buildInputs (l : List (String × InputSpec)) (k : String) :
    (buildInputs l).lookup k =
      (l.lookup k).map (fun s => kerasInput (s.shape.drop 1) ("states/" ++ k)) := by
  induction l with
  | nil => rfl
  | cons p t ih =>
    obtain ⟨a, s⟩ := p
    by_cases hak : a = k
    · subst hak
      simp [buildInputs, List.lookup]
    · have hbeq : (k == a) = false := beq_eq_false_iff_ne.mpr (Ne.symm hak)
      simpa [buildInputs, List.lookup, hbeq] using ih

theorem allSpecs_map_spec (l : List (String × InputSpec)) :
    allSpecs (l.map (fun p => (p.1, SpecOrDict.spec p.2))) = some l := by
  induction l with
  | nil => rfl
  | cons p t ih =>
    simp only [allSpecs, List.map_cons, List.mapM_cons] at ih ⊢
    rw [ih]
    rfl

theorem allSpecs_map_deserialize (l : List (String × SpecOrDict)) :
    allSpecs (l.map (fun p => (p.1, deserializeEntry p.2))) =
      some (forcedSpecs l) := by
  induction l with
  | nil => rfl
  | cons p t ih =>
    obtain ⟨a, s⟩ := p
    cases s <;>
      simp only [allSpecs, forcedSpecs, List.map_cons, List.mapM_cons,
        deserializeEntry] at ih ⊢ <;>
      rw [ih] <;> rfl

/-- Inversion of a successful construction: the two dictionary lookups
succeeded, the backbone was invoked on exactly the recorded arguments, and
every stored field and the outputs are determined by the arguments. -/
theorem classifierInit_ok_inv (b : Backbone) (nc : Nat)
    (ispecs : Option (List (String × InputSpec))) (dr : Rat) (ki : String)
    (kr br : Option Regularizer) (os : Bool) (m : Model)
    (tr : List BackboneInvocation)
    (h : classifierInit b nc ispecs dr ki kr br os = (.ok m, tr)) :
    ∃ img headFeat,
      (buildInputs (effectiveSpecs ispecs)).lookup "image" = some img ∧
      ((b.run img (statesArgOf (buildInputs (effectiveSpecs ispecs)))).1).lookup
        "head" = some headFeat ∧
      tr = [⟨img, statesArgOf (buildInputs (effectiveSpecs ispecs))⟩] ∧
      m.backbone = b ∧ m.num_classes = nc ∧
      m.input_specs = effectiveSpecs ispecs ∧ m.dropout_rate = dr ∧
      m.kernel_initializer = ki ∧ m.kernel_regularizer = kr ∧
      m.bias_regularizer = br ∧ m.output_states = os ∧
      m.outputs = (if os then
          ModelOutputs.withStates
            (classifierHeadApply ⟨b.head_filters, nc, dr, ki, kr, b.conv_type⟩
              headFeat)
            (b.run img (statesArgOf (buildInputs (effectiveSpecs ispecs)))).2
        else
          ModelOutputs.single
            (classifierHeadApply ⟨b.head_filters, nc, dr, ki, kr, b.conv_type⟩
              headFeat)) := by
  simp only [classifierInit] at h
  split at h
  · exact absurd h (by simp)
  · split at h
    · exact absurd h (by simp)
    · injection h with h1 h2
      injection h1 with h1
      subst h1
      subst h2
      refine ⟨_, _, by assumption, by assumption, rfl, rfl, rfl, rfl, rfl, rfl,
        rfl, rfl, rfl, ?_⟩
      cases os <;> rfl

/-- Both branches of `from_config` return the same post-call configuration. -/
theorem from_config_snd (cfg : Config) :
    (from_config cfg).2 =
      ⟨cfg.backbone, cfg.num_classes,
        if cfg.input_specs.isEmpty then cfg.input_specs
        else cfg.input_specs.map (fun p => (p.1, deserializeEntry p.2)),
        cfg.dropout_rate, cfg.kernel_initializer, cfg.kernel_regularizer,
        cfg.bias_regularizer, cfg.output_states⟩ := by
  simp only [from_config]
  split <;> rfl

theorem isEmpty_false_of_ne_nil {α : Type} {l : List α} (h : l ≠ []) :
    l.isEmpty = false := by
  cases l with
  | nil => exact absurd rfl h
  | cons a t => rfl

/-- A concrete backbone used in the witness instantiations: it exposes a
`'head'` endpoint computed from the image shape and echoes the states
argument. -/
def exBackbone : Backbone :=
  ⟨fun img s =>
    ([("head", ⟨[img.shape.headD none, some 16], "feat"⟩)],
      match s with
      | .tensor t => [("s0", t)]
      | .emptyDict => [("s0", ⟨[none, some 2], "state0"⟩)]),
    16, "3d"⟩

/-- The image placeholder built from the default input specs. -/
def exImage : Tensor := ⟨[none, none, none, none, some 3], "states/image"⟩

/-- The model `classifierInit exBackbone 10 none 0 "HeNormal" none none false`
constructs. -/
def exModel : Model :=
  ⟨exBackbone, 10, defaultInputSpecs, 0, "HeNormal", none, none, false,
    [("image", .tensor exImage)],
    .single ⟨[none, some 10], "classifier_head"⟩⟩

/-- The invocation trace of the `exModel` construction. -/
def exTrace : List BackboneInvocation := [⟨exImage, .emptyDict⟩]

/-- Input specs carrying a `'states'` entry besides `'image'`. -/
def exSpecsS : List (String × InputSpec) :=
  [("image", ⟨[none, none, none, none, some 3]⟩), ("states", ⟨[none, some 4]⟩)]

/-- The placeholder built for the `'states'` entry of `exSpecsS`. -/
def exStatesT : Tensor := ⟨[none, some 4], "states/states"⟩

/-- The model `classifierInit exBackbone 7 (some exSpecsS) 0 "HeNormal" none
none true` constructs. -/
def exModelS : Model :=
  ⟨exBackbone, 7, exSpecsS, 0, "HeNormal", none, none, true,
    [("image", .tensor exImage),
      ("states", .dict [("s0", ⟨[none, some 4], "s0"⟩)])],
    .withStates ⟨[none, some 7], "classifier_head"⟩ [("s0", exStatesT)]⟩

/-- The invocation trace of the `exModelS` construction. -/
def exTraceS : List BackboneInvocation := [⟨exImage, .tensor exStatesT⟩]

/-- C1: for every successfully constructed `MovinetClassifier`,
`from_config (get_config x)` reconstructs an equivalent model: the
reconstruction succeeds and the reconstructed model's `get_config` yields the
same values for every configuration key (backbone, num_classes, input_specs,
dropout_rate, kernel_initializer, kernel_regularizer, bias_regularizer,
output_states) as `get_config x`. -/
theorem C1_config_roundtrip (b : Backbone) (nc : Nat)
    (ispecs : Option (List (String × InputSpec))) (dr : Rat) (ki : String)
    (kr br : Option Regularizer) (os : Bool) (m : Model)
    (tr : List BackboneInvocation)
    (h : classifierInit b nc ispecs dr ki kr br os = (.ok m, tr)) :
    ∃ m2 tr2, (from_config (get_config m)).1 = (Except.ok m2, tr2) ∧
      get_config m2 = get_config m := by
  obtain ⟨img, headFeat, himg, hhead, htr, hb, hnc, hspec, hdr, hki, hkr, hbr,
    hos, hout⟩ := classifierInit_ok_inv b nc ispecs dr ki kr br os m tr h
  have hne : m.input_specs ≠ [] := by
    rw [hspec]; exact effectiveSpecs_ne_nil ispecs
  have hmapne : m.input_specs.map
      (fun p => (p.1, SpecOrDict.spec p.2)) ≠ [] := by
    cases hms : m.input_specs with
    | nil => exact absurd hms hne
    | cons a t => simp
  have hcond := isEmpty_false_of_ne_nil hmapne
  have hcomp : ((fun p : String × SpecOrDict => (p.1, deserializeEntry p.2)) ∘
      (fun p : String × InputSpec => (p.1, SpecOrDict.spec p.2))) =
      (fun p : String × InputSpec => (p.1, SpecOrDict.spec p.2)) := by
    funext p; rfl
  have hfc : (from_config (get_config m)).1 =
      classifierInit m.backbone m.num_classes (some m.input_specs)
        m.dropout_rate m.kernel_initializer m.kernel_regularizer
        m.bias_regularizer m.output_states := by
    simp only [from_config, get_config, hcond, Bool.false_eq_true, if_false,
      List.map_map, hcomp, allSpecs_map_spec]
  have hcg : classifierInit m.backbone m.num_classes (some m.input_specs)
      m.dropout_rate m.kernel_initializer m.kernel_regularizer
      m.bias_regularizer m.output_states = (.ok m, tr) := by
    rw [hb, hnc, hspec, hdr, hki, hkr, hbr, hos]
    rw [classifierInit_congr b nc (some (effectiveSpecs ispecs)) ispecs dr ki kr
      br os (effectiveSpecs_idem ispecs)]
    exact h
  exact ⟨m, tr, by rw [hfc, hcg], rfl⟩

/-- Witness for C1 at a concrete construction. -/
theorem C1_config_roundtrip_witness :
    ∃ m2 tr2, (from_config (get_config exModel)).1 = (Except.ok m2, tr2) ∧
      get_config m2 = get_config exModel :=
  C1_config_roundtrip exBackbone 10 none 0 "HeNormal" none none false exModel
    exTrace rfl

/-- C2: the output contract depends on the `output_states` flag given at
construction: when it is true the outputs are the pair of the classification
tensor and the states mapping returned by the backbone call; when it is false
the output is the single classification tensor with no state mapping. -/
theorem C2_output_states_contract (b : Backbone) (nc : Nat)
    (ispecs : Option (List (String × InputSpec))) (dr : Rat) (ki : String)
    (kr br : Option Regularizer) (os : Bool) (m : Model)
    (tr : List BackboneInvocation)
    (h : classifierInit b nc ispecs dr ki kr br os = (.ok m, tr)) :
    m.output_states = os ∧
    (os = true → ∃ x s, m.outputs = ModelOutputs.withStates x s ∧
      ∃ img, (buildInputs (effectiveSpecs ispecs)).lookup "image" = some img ∧
        s = (b.run img (statesArgOf (buildInputs (effectiveSpecs ispecs)))).2) ∧
    (os = false → ∃ x, m.outputs = ModelOutputs.single x) := by
  obtain ⟨img, headFeat, himg, hhead, htr, hb, hnc, hspec, hdr, hki, hkr, hbr,
    hos, hout⟩ := classifierInit_ok_inv b nc ispecs dr ki kr br os m tr h
  refine ⟨hos, ?_, ?_⟩
  · intro h1
    subst h1
    simp only [if_true] at hout
    exact ⟨_, _, hout, img, himg, rfl⟩
  · intro h1
    subst h1
    simp only [Bool.false_eq_true, if_false] at hout
    exact ⟨_, hout⟩

/-- Witness for C2 at a concrete construction with `output_states = true`. -/
theorem C2_output_states_contract_witness :
    exModelS.output_states = true ∧
      ∃ x s, exModelS.outputs = ModelOutputs.withStates x s := by
  obtain ⟨h1, h2, -⟩ := C2_output_states_contract exBackbone 7 (some exSpecsS) 0
    "HeNormal" none none true exModelS exTraceS rfl
  obtain ⟨x, s, hxs, -⟩ := h2 rfl
  exact ⟨h1, x, s, hxs⟩

/-- C3: a successful construction invokes the backbone exactly once, with the
`'image'` input placeholder and the carried-over states (the `'states'` entry
of the constructed inputs mapping when present, the empty mapping otherwise,
which is what `statesArgOf` computes), and applies the classification-head
transform to the `'head'` endpoint the backbone returned. -/
theorem C3_backbone_called_once (b : Backbone) (nc : Nat)
    (ispecs : Option (List (String × InputSpec))) (dr : Rat) (ki : String)
    (kr br : Option Regularizer) (os : Bool) (m : Model)
    (tr : List BackboneInvocation)
    (h : classifierInit b nc ispecs dr ki kr br os = (.ok m, tr)) :
    ∃ img, (buildInputs (effectiveSpecs ispecs)).lookup "image" = some img ∧
      tr = [⟨img, statesArgOf (buildInputs (effectiveSpecs ispecs))⟩] ∧
      ∃ headFeat,
        ((b.run img (statesArgOf
          (buildInputs (effectiveSpecs ispecs)))).1).lookup "head" =
            some headFeat ∧
        primaryOutput m.outputs =
          classifierHeadApply ⟨b.head_filters, nc, dr, ki, kr, b.conv_type⟩
            headFeat := by
  obtain ⟨img, headFeat, himg, hhead, htr, hb, hnc, hspec, hdr, hki, hkr, hbr,
    hos, hout⟩ := classifierInit_ok_inv b nc ispecs dr ki kr br os m tr h
  refine ⟨img, himg, htr, headFeat, hhead, ?_⟩
  rw [hout]
  cases os <;> rfl

/-- Witness for C3 at a concrete construction carrying a states input. -/
theorem C3_backbone_called_once_witness :
    ∃ img, (buildInputs (effectiveSpecs (some exSpecsS))).lookup "image" =
        some img ∧
      exTraceS =
        [⟨img, statesArgOf (buildInputs (effectiveSpecs (some exSpecsS)))⟩] := by
  obtain ⟨img, himg, htr, -⟩ := C3_backbone_called_once exBackbone 7
    (some exSpecsS) 0 "HeNormal" none none true exModelS exTraceS rfl
  exact ⟨img, himg, htr⟩

/-- C4: a successful `build_movinet_model` call yields a `MovinetClassifier`
whose backbone is the one the factory produced from `input_specs`,
`model_config.backbone`, `model_config.norm_activation` and the l2
regularizer, with the given `num_classes`, the l2 regularizer as kernel
regularizer, `input_specs` wrapped as `{'image': input_specs}`, the config's
dropout rate, and the remaining constructor parameters at their defaults. -/
theorem C4_build_movinet_model_wiring (f : BackboneFactory) (ispec : InputSpec)
    (mcfg : MovinetModel) (nc : Nat) (l2 : Option Regularizer) (m : Model)
    (tr : List BackboneInvocation)
    (h : build_movinet_model f ispec mcfg nc l2 = (.ok m, tr)) :
    m.backbone = f ispec mcfg.backbone mcfg.norm_activation l2 ∧
    m.num_classes = nc ∧ m.kernel_regularizer = l2 ∧
    m.input_specs = [("image", ispec)] ∧
    m.dropout_rate = mcfg.dropout_rate ∧
    m.kernel_initializer = "HeNormal" ∧ m.bias_regularizer = none ∧
    m.output_states = false := by
  have h' : classifierInit (f ispec mcfg.backbone mcfg.norm_activation l2) nc
      (some [("image", ispec)]) mcfg.dropout_rate "HeNormal" l2 none false =
      (.ok m, tr) := h
  obtain ⟨img, headFeat, himg, hhead, htr, hb, hnc, hspec, hdr, hki, hkr, hbr,
    hos, hout⟩ := classifierInit_ok_inv _ _ _ _ _ _ _ _ _ _ h'
  have hspec' : effectiveSpecs (some [("image", ispec)]) = [("image", ispec)] :=
    rfl
  exact ⟨hb, hnc, hkr, by rw [hspec, hspec'], hdr, hki, hbr, hos⟩

/-- A trivial backbone factory for the witness instantiations. -/
def exFactory : BackboneFactory := fun _ _ _ _ => exBackbone

/-- An input spec for a video clip batch. -/
def exSpec : InputSpec := ⟨[none, none, none, none, some 3]⟩

/-- A concrete model configuration object. -/
def exMovinetModelCfg : MovinetModel := ⟨⟨"movinet_a0"⟩, ⟨"bn_swish"⟩, 0⟩

/-- The model `build_movinet_model exFactory exSpec exMovinetModelCfg 5 none`
constructs. -/
def exModelB : Model :=
  ⟨exBackbone, 5, [("image", exSpec)], 0, "HeNormal", none, none, false,
    [("image", .tensor exImage)],
    .single ⟨[none, some 5], "classifier_head"⟩⟩

/-- Witness for C4 at a concrete builder call. -/
theorem C4_build_movinet_model_wiring_witness :
    exModelB.backbone = exFactory exSpec exMovinetModelCfg.backbone
        exMovinetModelCfg.norm_activation none ∧
    exModelB.num_classes = 5 ∧ exModelB.kernel_regularizer = none ∧
    exModelB.input_specs = [("image", exSpec)] ∧
    exModelB.dropout_rate = exMovinetModelCfg.dropout_rate ∧
    exModelB.kernel_initializer = "HeNormal" ∧
    exModelB.bias_regularizer = none ∧ exModelB.output_states = false :=
  C4_build_movinet_model_wiring exFactory exSpec exMovinetModelCfg 5 none
    exModelB exTrace rfl

/-- C5: the module's registration call puts `build_movinet_model` into the
external model factory under exactly the string key `'movinet'`, so a lookup
of `'movinet'` in the registry yields this builder. -/
theorem C5_movinet_registered :
    registered_model_builders.lookup "movinet" = some build_movinet_model :=
  rfl

/-- C6: the classification output of a successful construction has
`num_classes` as its last (feature) dimension, the classification head having
been constructed with that `num_classes`. -/
theorem C6_output_last_dim (b : Backbone) (nc : Nat)
    (ispecs : Option (List (String × InputSpec))) (dr : Rat) (ki : String)
    (kr br : Option Regularizer) (os : Bool) (m : Model)
    (tr : List BackboneInvocation)
    (h : classifierInit b nc ispecs dr ki kr br os = (.ok m, tr)) :
    (primaryOutput m.outputs).shape.getLast? = some (some nc) ∧
      m.num_classes = nc := by
  obtain ⟨img, headFeat, himg, hhead, htr, hb, hnc, hspec, hdr, hki, hkr, hbr,
    hos, hout⟩ := classifierInit_ok_inv b nc ispecs dr ki kr br os m tr h
  refine ⟨?_, hnc⟩
  rw [hout]
  cases os <;> rfl

/-- Witness for C6 at a concrete construction. -/
theorem C6_output_last_dim_witness :
    (primaryOutput exModel.outputs).shape.getLast? = some (some 10) ∧
      exModel.num_classes = 10 :=
  C6_output_last_dim exBackbone 10 none 0 "HeNormal" none none false exModel
    exTrace rfl

/-- C7: when the config's `input_specs` entry is non-empty, `from_config`
rewrites every plain-dictionary entry into the framework-native spec the
deserializer yields, leaves native entries unchanged, and only then invokes
the constructor, on the fully deserialized specs. -/
theorem C7_from_config_deserialization (cfg : Config)
    (hne : cfg.input_specs ≠ []) :
    (from_config cfg).2.input_specs =
      cfg.input_specs.map (fun p => (p.1, deserializeEntry p.2)) ∧
    (∀ n d, (n, SpecOrDict.dict d) ∈ cfg.input_specs →
      (n, SpecOrDict.spec (kerasDeserialize d)) ∈
        (from_config cfg).2.input_specs) ∧
    (∀ n s, (n, SpecOrDict.spec s) ∈ cfg.input_specs →
      (n, SpecOrDict.spec s) ∈ (from_config cfg).2.input_specs) ∧
    (from_config cfg).1 =
      classifierInit cfg.backbone cfg.num_classes
        (some (forcedSpecs cfg.input_specs)) cfg.dropout_rate
        cfg.kernel_initializer cfg.kernel_regularizer cfg.bias_regularizer
        cfg.output_states := by
  have hcond : cfg.input_specs.isEmpty = false := isEmpty_false_of_ne_nil hne
  have h2 : (from_config cfg).2.input_specs =
      cfg.input_specs.map (fun p => (p.1, deserializeEntry p.2)) := by
    rw [from_config_snd]
    simp [hcond]
  refine ⟨h2, ?_, ?_, ?_⟩
  · intro n d hmem
    rw [h2]
    have hm := List.mem_map_of_mem
      (fun p : String × SpecOrDict => (p.1, deserializeEntry p.2)) hmem
    simpa [deserializeEntry] using hm
  · intro n s hmem
    rw [h2]
    have hm := List.mem_map_of_mem
      (fun p : String × SpecOrDict => (p.1, deserializeEntry p.2)) hmem
    simpa [deserializeEntry] using hm
  · simp only [from_config, hcond, Bool.false_eq_true, if_false,
      allSpecs_map_deserialize]

/-- A serialized input spec as written into a saved config. -/
def exSerialized : SerializedSpec := ⟨"InputSpec", [none, some 4]⟩

/-- A config whose `input_specs` holds one native and one plain-dictionary
entry. -/
def exConfigD : Config :=
  ⟨exBackbone, 7, [("image", .spec exSpec), ("states", .dict exSerialized)],
    0, "HeNormal", none, none, true⟩

/-- Witness for C7 at a concrete config holding a serialized entry. -/
theorem C7_from_config_deserialization_witness :
    (from_config exConfigD).2.input_specs =
      exConfigD.input_specs.map (fun p => (p.1, deserializeEntry p.2)) ∧
    ("states", SpecOrDict.spec (kerasDeserialize exSerialized)) ∈
      (from_config exConfigD).2.input_specs := by
  obtain ⟨h1, h2, -, -⟩ :=
    C7_from_config_deserialization exConfigD (by decide)
  exact ⟨h1, h2 "states" exSerialized (by decide)⟩

/-- C8: the `checkpoint_items` property of a constructed model is the
one-entry mapping sending `'backbone'` to the backbone object the model was
constructed with, which the `backbone` property also exposes. -/
theorem C8_checkpoint_items_backbone (b : Backbone) (nc : Nat)
    (ispecs : Option (List (String × InputSpec))) (dr : Rat) (ki : String)
    (kr br : Option Regularizer) (os : Bool) (m : Model)
    (tr : List BackboneInvocation)
    (h : classifierInit b nc ispecs dr ki kr br os = (.ok m, tr)) :
    checkpoint_items m = [("backbone", b)] ∧ m.backbone = b := by
  obtain ⟨img, headFeat, himg, hhead, htr, hb, hnc, hspec, hdr, hki, hkr, hbr,
    hos, hout⟩ := classifierInit_ok_inv b nc ispecs dr ki kr br os m tr h
  exact ⟨by rw [checkpoint_items, hb], hb⟩

/-- Witness for C8 at a concrete construction. -/
theorem C8_checkpoint_items_backbone_witness :
    checkpoint_items exModel = [("backbone", exBackbone)] ∧
      exModel.backbone = exBackbone :=
  C8_checkpoint_items_backbone exBackbone 10 none 0 "HeNormal" none none false
    exModel exTrace rfl

/-- C9: `from_config` mutates its config argument in place.  The embedding
returns the configuration mapping as the caller observes it after the call:
every plain-dictionary entry of `input_specs` has been replaced by the
deserialized spec object, the `input_specs` value is exactly the original
mapping with that per-entry rewrite (no entries added or removed, native
entries kept), and every other config entry is left unchanged. -/
theorem C9_from_config_mutation (cfg : Config) :
    (from_config cfg).2.backbone = cfg.backbone ∧
    (from_config cfg).2.num_classes = cfg.num_classes ∧
    (from_config cfg).2.dropout_rate = cfg.dropout_rate ∧
    (from_config cfg).2.kernel_initializer = cfg.kernel_initializer ∧
    (from_config cfg).2.kernel_regularizer = cfg.kernel_regularizer ∧
    (from_config cfg).2.bias_regularizer = cfg.bias_regularizer ∧
    (from_config cfg).2.output_states = cfg.output_states ∧
    (∀ n d, (n, SpecOrDict.dict d) ∈ cfg.input_specs →
      (n, SpecOrDict.spec (kerasDeserialize d)) ∈
        (from_config cfg).2.input_specs) ∧
    (from_config cfg).2.input_specs =
      (if cfg.input_specs.isEmpty then cfg.input_specs
        else cfg.input_specs.map (fun p => (p.1, deserializeEntry p.2))) := by
  rw [from_config_snd]
  refine ⟨rfl, rfl, rfl, rfl, rfl, rfl, rfl, ?_, rfl⟩
  intro n d hmem
  have hne : cfg.input_specs ≠ [] := by
    intro he
    rw [he] at hmem
    cases hmem
  have hcond := isEmpty_false_of_ne_nil hne
  simp only [hcond, Bool.false_eq_true, if_false]
  have hm := List.mem_map_of_mem
    (fun p : String × SpecOrDict => (p.1, deserializeEntry p.2)) hmem
  simpa [deserializeEntry] using hm

/-- Witness for C9 at a concrete config holding a serialized entry. -/
theorem C9_from_config_mutation_witness :
    (from_config exConfigD).2.backbone = exConfigD.backbone ∧
    ("states", SpecOrDict.spec (kerasDeserialize exSerialized)) ∈
      (from_config exConfigD).2.input_specs := by
  obtain ⟨h1, -, -, -, -, -, -, h8, -⟩ := C9_from_config_mutation exConfigD
  exact ⟨h1, h8 "states" exSerialized (by decide)⟩

/-- C10: the constructor's unstated precondition on `input_specs`.  Every
non-empty mapping lacking the key `'image'` makes construction fail with
`KeyError 'image'` while the backbone argument dictionary is being built,
the invocation trace staying empty because the backbone was never reached;
and whenever the mapping is `None`, empty, or contains `'image'`, the image
placeholder lookup succeeds. -/
theorem C10_image_precondition :
    (∀ (b : Backbone) (nc : Nat) (l : List (String × InputSpec)) (dr : Rat)
      (ki : String) (kr br : Option Regularizer) (os : Bool),
      l ≠ [] → l.lookup "image" = none →
      classifierInit b nc (some l) dr ki kr br os =
        (.error (.keyError "image"), [])) ∧
    (∀ ispecs : Option (List (String × InputSpec)),
      (ispecs = none ∨ ispecs = some [] ∨
        (∃ s, (ispecs.getD []).lookup "image" = some s)) →
      ∃ img, (buildInputs (effectiveSpecs ispecs)).lookup "image" = some img) := by
  constructor
  · intro b nc l dr ki kr br os hne hnone
    have hl : effectiveSpecs (some l) = l := by
      cases l with
      | nil => exact absurd rfl hne
      | cons a t => rfl
    simp [classifierInit, hl, lookup_buildInputs, hnone]
  · intro ispecs hcase
    rcases hcase with h | h | ⟨s, hs⟩
    · subst h
      exact ⟨_, rfl⟩
    · subst h
      exact ⟨_, rfl⟩
    · cases ispecs with
      | none => simp [List.lookup] at hs
      | some l =>
        cases l with
        | nil => simp [List.lookup] at hs
        | cons a t =>
          have hl : effectiveSpecs (some (a :: t)) = a :: t := rfl
          refine ⟨kerasInput (s.shape.drop 1) ("states/" ++ "image"), ?_⟩
          rw [hl, lookup_buildInputs]
          simp only [Option.getD] at hs
          rw [hs]
          rfl

/-- Witness for C10: a non-empty mapping lacking `'image'` fails before the
backbone runs, and a mapping containing `'image'` passes the lookup. -/
theorem C10_image_precondition_witness :
    classifierInit exBackbone 3 (some [("video", exSpec)]) 0 "HeNormal" none
        none false = (.error (.keyError "image"), []) ∧
      ∃ img, (buildInputs (effectiveSpecs (some exSpecsS))).lookup "image" =
        some img := by
  obtain ⟨h1, h2⟩ := C10_image_precondition
  refine ⟨h1 exBackbone 3 [("video", exSpec)] 0 "HeNormal" none none false
    (by decide) (by decide), h2 (some exSpecsS) ?_⟩
  right
  right
  exact ⟨⟨[none, none, none, none, some 3]⟩, by decide⟩

end Movinet
